import Mathlib

/-!
Verification of the prompt relay handler in
`netlify/functions/generate-risk.js`.

The handler is a single serverless function.  We give a shallow embedding:
JavaScript/JSON values become the inductive `JsVal`, thrown exceptions become
explicit `JsError` values threaded through `Except`-style matches, the
environment (HTTP event, configuration, and the outcome of the single
outbound `fetch`) becomes explicit inputs, and the handler becomes a total
Lean function returning a structured `HandlerResult` (response, console
output, issued upstream requests, and the exception caught by the
`try`/`catch`, if any).
-/

namespace GenRisk

set_option maxRecDepth 100000

/-- A JSON-representable JavaScript value.  `JSON.parse` never produces
`undefined`, so `undefined` is represented by `Option.none` at property
access sites rather than by a constructor. -/
inductive JsVal where
  | null : JsVal
  | bool : Bool → JsVal
  | num : Int → JsVal
  | str : String → JsVal
  | arr : List JsVal → JsVal
  | obj : List (String × JsVal) → JsVal

/-- A JavaScript exception as observed by the handler: its `name` and its
`message`.  (The handler inspects only `error.name` and `error.message`.) -/
structure JsError where
  name : String
  message : String
deriving DecidableEq

/-- JavaScript truthiness of a defined value (`NaN` does not arise: our
numbers are integers, which is all the handler ever compares). -/
def truthy : JsVal → Bool
  | .null => false
  | .bool b => b
  | .num n => n != 0
  | .str s => s ≠ ""
  | .arr _ => true
  | .obj _ => true

/-- Truthiness of a possibly-`undefined` value (`none` = `undefined`). -/
def truthyOpt : Option JsVal → Bool
  | none => false
  | some v => truthy v

/-- First-match field lookup in an object literal (JSON.parse keeps a single
binding per key, so field lists are duplicate-free in practice). -/
def lookupField : List (String × JsVal) → String → Option JsVal
  | [], _ => none
  | (k, v) :: fs, key => if k = key then some v else lookupField fs key

/-- The UTF-16 code-unit count of a string — JavaScript's string
`.length` (an astral code point counts as a surrogate pair). -/
def utf16Length (s : String) : Nat :=
  s.data.foldl (fun n ch => n + (if ch.toNat < 65536 then 1 else 2)) 0

/-- Property read on a defined, non-null value: object fields, plus the
`length` property of strings and arrays.  Everything else yields
`undefined` (`none`), as in JavaScript. -/
def getField : JsVal → String → Option JsVal
  | .obj fs, key => lookupField fs key
  | .str s, key =>
    if key = "length" then some (.num (utf16Length s)) else none
  | .arr xs, key => if key = "length" then some (.num xs.length) else none
  | _, _ => none

/-- Indexed read `v[i]`: array element, string character, or the object
field named by the decimal index; `undefined` otherwise. -/
def getIdx : JsVal → Nat → Option JsVal
  | .arr xs, i => xs[i]?
  | .str s, i => (s.data[i]?).map fun ch => .str (String.singleton ch)
  | .obj fs, i => lookupField fs (Nat.repr i)
  | _, _ => none

/-- The `TypeError` raised by reading property `k` of `undefined`. -/
def teUndefined (k : String) : JsError :=
  ⟨"TypeError", "Cannot read properties of undefined (reading " ++ k ++ ")"⟩

/-- The `TypeError` raised by reading property `k` of `null`. -/
def teNull (k : String) : JsError :=
  ⟨"TypeError", "Cannot read properties of null (reading " ++ k ++ ")"⟩

/-- Property access `v.k` on a possibly-`undefined` value: throws a
`TypeError` on `undefined` and `null`, otherwise reads the field. -/
def accessProp : Option JsVal → String → Except JsError (Option JsVal)
  | none, k => .error (teUndefined k)
  | some .null, k => .error (teNull k)
  | some v, k => .ok (getField v k)

/-- Decimal digit character. -/
def digitChar (d : Nat) : Char := Char.ofNat (48 + d % 10)

/-- One JSON string-escape step, as performed by `JSON.stringify`. -/
def escapeChar (ch : Char) : String :=
  if ch = '"' then "\\\""
  else if ch = '\\' then "\\\\"
  else if ch = '\n' then "\\n"
  else if ch = '\r' then "\\r"
  else if ch = '\t' then "\\t"
  else if ch = Char.ofNat 8 then "\\b"
  else if ch = Char.ofNat 12 then "\\f"
  else if ch.toNat < 32 then
    "\\u00" ++ String.singleton (digitChar (ch.toNat / 16)) ++
      String.singleton (digitChar (ch.toNat % 16))
  else String.singleton ch

/-- Escape a list of characters (the inside of a JSON string literal). -/
def escList : List Char → String
  | [] => ""
  | c :: cs => escapeChar c ++ escList cs

/-- Escape the contents of a string for JSON serialization. -/
def escapeFragment (s : String) : String := escList s.data

/-- A serialized JSON string literal. -/
def escapeString (s : String) : String := "\"" ++ escapeFragment s ++ "\""

/-- Decimal rendering of an integer, as `JSON.stringify` prints our
(integral) numbers. -/
def intRepr : Int → String
  | .ofNat n => Nat.repr n
  | .negSucc m => "-" ++ Nat.repr (m + 1)

mutual

/-- Model of `JSON.stringify` on JSON-representable values. -/
def stringify : JsVal → String
  | .null => "null"
  | .bool true => "true"
  | .bool false => "false"
  | .num n => intRepr n
  | .str s => escapeString s
  | .arr xs => "[" ++ stringifyList xs ++ "]"
  | .obj fs => "\x7b" ++ stringifyFields fs ++ "\x7d"

/-- Comma-separated serialization of array elements. -/
def stringifyList : List JsVal → String
  | [] => ""
  | [x] => stringify x
  | x :: xs => stringify x ++ "," ++ stringifyList xs

/-- Comma-separated serialization of object fields. -/
def stringifyFields : List (String × JsVal) → String
  | [] => ""
  | [(k, v)] => escapeString k ++ ":" ++ stringify v
  | (k, v) :: fs => escapeString k ++ ":" ++ stringify v ++ "," ++ stringifyFields fs

end

/-! ### The handler's environment -/

/-- The inbound invocation as the handler consumes it: the HTTP method and
the outcome of `JSON.parse(event.body)` (either the parsed value or the
`SyntaxError` the parse raised). -/
structure Event where
  httpMethod : String
  bodyParse : Except JsError JsVal

/-- The outcome of the single outbound `fetch`: either the promise rejects
with an error (network failure, or the `AbortError` produced when the
20-second timer fires and aborts the controller), or a response arrives,
carrying its status code, its status text, and the outcome of
`response.json()` on its body. -/
inductive FetchOutcome where
  | failure : JsError → FetchOutcome
  | response : Nat → String → Except JsError JsVal → FetchOutcome

/-- One outbound request as issued by the handler's `fetch` call:
the URL, method, content type and serialized body, whether the abort
controller's signal is attached, and the delay of the `setTimeout` timer
that aborts that controller. -/
structure FetchRequest where
  url : String
  method : String
  contentType : String
  body : String
  signalAttached : Bool
  abortTimerMs : Nat
deriving DecidableEq

/-- The HTTP response the handler returns: a status code and a body string
(produced by `JSON.stringify` in the source). -/
structure Response where
  statusCode : Nat
  body : String
deriving DecidableEq

/-- Everything observable about one invocation: the returned response, the
console output in order, the upstream requests issued, and the exception
that reached the `try`/`catch` around the fetch section, if any. -/
structure HandlerResult where
  response : Response
  logs : List String
  upstreamCalls : List FetchRequest
  caughtError : Option JsError

/-! ### Fixed strings of the source -/

def msg405 : String := "Method Not Allowed. This function only accepts POST requests."

def msgInvalidJson : String := "Invalid JSON body."

def msgPromptRequired : String := "Prompt is required in the request body."

def msgNoKey : String := "Server API key is not configured. Please set GEMINI_API_KEY in Netlify environment variables."

def msgTimeout : String := "AI service call timed out. Please try again."

def msgServerError : String := "Failed to connect to the AI service due to a server-side error."

def msgHeadAiError : String := "Error from AI service: "

def logInvoked : String := "Function invoked: Starting generate-risk.js execution."

def logHeadMethod : String := "Method Not Allowed: "

def logHeadPromptLen : String := "Request body parsed. Prompt length: "

def logHeadParseError : String := "Error parsing request body: "

def logPromptMissing : String := "Prompt is missing from request body."

def logNoKey : String := "GEMINI_API_KEY environment variable is not set on Netlify."

def logKeyOk : String := "API Key retrieved successfully (masked for security)."

def logHeadUrl : String := "Gemini API URL constructed: "

def logPayload : String := "Payload prepared for Gemini API."

def logAttempt : String := "Attempting fetch call to Gemini API with 20-second timeout..."

def logHeadStatus : String := "Fetch response received from Gemini API. Status: "

def logHeadNonOk : String := "Error calling Gemini API: Non-OK response. "

def logJsonParsed : String := "JSON result parsed from Gemini API response."

def logHeadExtracted : String := "Generated text extracted successfully. Length: "

def logHeadUnexpected : String := "Gemini API returned an unexpected structure or no text: "

def logHeadAbort : String := "AI API call timed out after 20 seconds. "

def logHeadNetError : String := "Network or unexpected error during AI API call (caught in try-catch): "

def logFinally : String := "Function execution finished (or caught error)."

/-- The model identifier fixed in the source. -/
def API_MODEL : String := "gemini-2.5-flash-preview-05-20"

/-- The upstream URL up to (and including) `key=`. -/
def urlBase : String :=
  "https://generativelanguage.googleapis.com/v1beta/models/" ++ API_MODEL ++
    ":generateContent?key="

/-- The full upstream URL for a given credential. -/
def apiUrlFor (key : String) : String := urlBase ++ key

/-- Model of `s.substring(0, 70)`. -/
def substr70 (s : String) : String := String.mk (s.data.take 70)

/-! ### Rendering console output

`console.log`/`warn`/`error` with several arguments prints them separated
by spaces; we model the rendering of a non-string value by its JSON
serialization, of a string argument by itself, of `undefined` by
`"undefined"`, and of an error object by `name ++ ": " ++ message`. -/

/-- Console rendering of a possibly-`undefined` value. -/
def renderLogVal : Option JsVal → String
  | none => "undefined"
  | some (.str s) => s
  | some v => stringify v

/-- Console rendering of an error object. -/
def renderErr (e : JsError) : String := e.name ++ ": " ++ e.message

/-- The second argument of the `Prompt length:` log line, which the source
computes as `prompt ? prompt.length : '0'`. -/
def renderPromptLen (p : Option JsVal) : String :=
  match p with
  | some v => if truthy v then renderLogVal (getField v "length") else "0"
  | none => "0"

/-- The code points JavaScript's `ToNumber` trims around a numeric string
(`StrWhiteSpaceChar`): ASCII whitespace and line terminators, NBSP, the
Unicode `Zs` spaces, the line/paragraph separators, and the BOM. -/
def jsWhitespace (ch : Char) : Bool :=
  let n := ch.toNat
  (9 ≤ n && n ≤ 13) || n = 32 || n = 160 || n = 5760 ||
    (8192 ≤ n && n ≤ 8202) || n = 8232 || n = 8233 ||
    n = 8239 || n = 8287 || n = 12288 || n = 65279

/-- Trim JS whitespace from both ends of a character list. -/
def trimJs (l : List Char) : List Char :=
  ((l.dropWhile jsWhitespace).reverse.dropWhile jsWhitespace).reverse

/-- Validity and positivity of an unsigned decimal mantissa (`digits`,
`digits.`, `digits.digits`, or `.digits`): `none` when the shape is not
a mantissa, otherwise whether some significand digit is non-zero. -/
def decMantissaPos (l : List Char) : Option Bool :=
  let d1 := l.takeWhile Char.isDigit
  match l.drop d1.length with
  | [] => if d1.isEmpty then none else some (d1.any fun ch => ch ≠ '0')
  | '.' :: r2 =>
    if r2.all Char.isDigit ∧ ¬ (d1.isEmpty ∧ r2.isEmpty) then
      some ((d1 ++ r2).any fun ch => ch ≠ '0')
    else none
  | _ => none

/-- Positivity of an unsigned numeric-literal body (after trimming and
sign handling): `Infinity`, or a decimal mantissa with an optional
exponent; `none` is `NaN`.  An exponent cannot change sign or
(mathematical) zero-ness, so the mantissa decides positivity.  The one
liberty taken: a positive mantissa with an enormous negative exponent
(below the smallest positive float64 subnormal, e.g. `1e-400`, which
JavaScript rounds to `+0`) is still modeled as positive — float rounding
is outside this integer embedding. -/
def jsUnsignedGtZero (l : List Char) : Option Bool :=
  if l = "Infinity".data then some true
  else
    let m := l.takeWhile fun ch => ¬ (ch = 'e' ∨ ch = 'E')
    match l.drop m.length with
    | [] => decMantissaPos m
    | _ :: expPart =>
      let ep := match expPart with
        | '+' :: t => t
        | '-' :: t => t
        | t => t
      if ¬ ep.isEmpty ∧ ep.all Char.isDigit then decMantissaPos m else none

/-- Positivity of a non-decimal digit string over the digit predicate of
its radix: `none` (`NaN`) when empty or containing an invalid digit. -/
def radixGtZero (valid : Char → Bool) (l : List Char) : Option Bool :=
  if ¬ l.isEmpty ∧ l.all valid then some (l.any fun ch => ch ≠ '0')
  else none

/-- Model of JavaScript's `ToNumber(string) > 0`: trim, handle an optional
sign (any `-`-signed value is `≤ 0` or `NaN`, hence never `> 0`),
`Infinity`, `0x`/`0o`/`0b` literals (which admit no sign), and decimal
literals with fraction and exponent. -/
def jsStrGtZero (s : String) : Bool :=
  match trimJs s.data with
  | [] => false
  | '-' :: _ => false
  | '+' :: t => (jsUnsignedGtZero t).getD false
  | '0' :: x :: rest =>
    if x = 'x' ∨ x = 'X' then
      (radixGtZero (fun ch => ch.isDigit ||
        (97 ≤ ch.toNat && ch.toNat ≤ 102) ||
        (65 ≤ ch.toNat && ch.toNat ≤ 70)) rest).getD false
    else if x = 'o' ∨ x = 'O' then
      (radixGtZero (fun ch => 48 ≤ ch.toNat && ch.toNat ≤ 55) rest).getD false
    else if x = 'b' ∨ x = 'B' then
      (radixGtZero (fun ch => ch = '0' ∨ ch = '1') rest).getD false
    else (jsUnsignedGtZero ('0' :: x :: rest)).getD false
  | t => (jsUnsignedGtZero t).getD false

mutual

/-- JS `ToString` of an element as `Array.prototype.join` uses it:
`null` (and holes) render empty, nested arrays render as their own join,
plain objects as `[object Object]`. -/
def jsValToJoin : JsVal → String
  | .null => ""
  | .bool true => "true"
  | .bool false => "false"
  | .num n => intRepr n
  | .str s => s
  | .arr xs => jsArrJoin xs
  | .obj _ => "[object Object]"

/-- JS `Array.prototype.join` with the default comma separator — what
`ToPrimitive` produces for an array operand of `>`. -/
def jsArrJoin : List JsVal → String
  | [] => ""
  | [x] => jsValToJoin x
  | x :: xs => jsValToJoin x ++ "," ++ jsArrJoin xs

end

/-- Model of the JavaScript comparison `x > 0` as the source's
`length > 0` guards use it: `undefined` and `NaN` compare false, `null`
coerces to `0`, booleans to `0`/`1`, strings through `ToNumber`, and
arrays through `ToNumber` of their comma join. -/
def jsGtZero : Option JsVal → Bool
  | none => false
  | some .null => false
  | some (.bool b) => b
  | some (.num n) => decide (0 < n)
  | some (.str s) => jsStrGtZero s
  | some (.arr xs) => jsStrGtZero (jsArrJoin xs)
  | some (.obj _) => false

/-! ### The extraction step (step 8 of the source) -/

/-- Outcome of evaluating the guarded extraction of
`result.candidates[0].content.parts[0].text` together with the
`generatedText.length` read performed by the success log line. -/
inductive ExtractOutcome where
  | noText : ExtractOutcome
  | text : JsVal → ExtractOutcome
  | thrown : JsError → ExtractOutcome

/-- The extraction logic of the source, short-circuit order preserved:

`result.candidates && result.candidates.length > 0 &&
 result.candidates[0].content && result.candidates[0].content.parts &&
 result.candidates[0].content.parts.length > 0`

then `generatedText = result.candidates[0].content.parts[0].text`, whose
`length` is read by the success log (throwing a `TypeError` when
`generatedText` is `undefined` or `null`). -/
def extractText (result : JsVal) : ExtractOutcome :=
  match accessProp (some result) "candidates" with
  | .error e => .thrown e
  | .ok none => .noText
  | .ok (some cands) =>
    if truthy cands then
      if jsGtZero (getField cands "length") then
        match accessProp (getIdx cands 0) "content" with
        | .error e => .thrown e
        | .ok none => .noText
        | .ok (some content) =>
          if truthy content then
            match getField content "parts" with
            | none => .noText
            | some partsV =>
              if truthy partsV then
                if jsGtZero (getField partsV "length") then
                  match accessProp (getIdx partsV 0) "text" with
                  | .error e => .thrown e
                  | .ok none => .thrown (teUndefined "length")
                  | .ok (some .null) => .thrown (teNull "length")
                  | .ok (some v) => .text v
                else .noText
              else .noText
          else .noText
      else .noText
    else .noText

/-- `{ statusCode, body: JSON.stringify(v) }`. -/
def jsonResponse (code : Nat) (v : JsVal) : Response := ⟨code, stringify v⟩

/-- `{ message: m }`. -/
def msgBody (m : String) : JsVal := .obj [("message", .str m)]

/-- The payload built from the validated prompt:
`contents: [ role: "user", parts: [ text: prompt ] ]`. -/
def payloadFor (prompt : JsVal) : JsVal :=
  .obj [("contents", .arr [.obj [("role", .str "user"),
    ("parts", .arr [.obj [("text", prompt)]])]])]

/-- The single `fetch` call the handler issues: POST, JSON content type,
the serialized payload as body, the abort controller's signal attached,
with the controller aborted by a 20000 ms timer. -/
def fetchRequestFor (key : String) (prompt : JsVal) : FetchRequest :=
  ⟨apiUrlFor key, "POST", "application/json", stringify (payloadFor prompt),
    true, 20000⟩

/-- The `catch` block: an `AbortError` (the fired timeout) becomes 504 with
the timeout message; every other exception becomes 500 with the fixed
message and the error's `message` in the `error` field.  The `finally`
log line closes the console output. -/
def catchResult (e : JsError) (logs : List String) (req : FetchRequest) :
    HandlerResult :=
  if e.name = "AbortError" then
    { response := jsonResponse 504 (msgBody msgTimeout),
      logs := logs ++ [logHeadAbort ++ renderErr e, logFinally],
      upstreamCalls := [req], caughtError := some e }
  else
    { response := jsonResponse 500 (.obj [("message", .str msgServerError),
        ("error", .str e.message)]),
      logs := logs ++ [logHeadNetError ++ renderErr e, logFinally],
      upstreamCalls := [req], caughtError := some e }

/-- The console output accumulated by the time the fetch is attempted. -/
def validatedLogs (promptOpt : Option JsVal) (key : String) : List String :=
  [logInvoked, logHeadPromptLen ++ renderPromptLen promptOpt, logKeyOk,
   logHeadUrl ++ substr70 (apiUrlFor key) ++ "...", logPayload, logAttempt]

/-- Steps 6–8 of the source: the `try`/`catch`/`finally` around the fetch.
`req` is the request already issued, `logs` the console output so far. -/
def fetchStage (req : FetchRequest) (logs : List String)
    (outcome : FetchOutcome) : HandlerResult :=
  match outcome with
  | .failure err => catchResult err logs req
  | .response status statusText json =>
    if ¬ (200 ≤ status ∧ status ≤ 299) then
      match json with
      | .error e => catchResult e (logs ++ [logHeadStatus ++ Nat.repr status]) req
      | .ok errBody =>
        { response := jsonResponse status
            (.obj [("message", .str (msgHeadAiError ++ statusText)),
              ("details", errBody)]),
          logs := logs ++ [logHeadStatus ++ Nat.repr status,
            logHeadNonOk ++ Nat.repr status ++ " " ++
              statusText ++ " " ++ stringify errBody, logFinally],
          upstreamCalls := [req], caughtError := none }
    else
      match json with
      | .error e => catchResult e (logs ++ [logHeadStatus ++ Nat.repr status]) req
      | .ok result =>
        match extractText result with
        | .thrown e =>
          catchResult e
            (logs ++ [logHeadStatus ++ Nat.repr status, logJsonParsed]) req
        | .noText =>
          { response := jsonResponse 200 (.obj [("text", .str "")]),
            logs := logs ++ [logHeadStatus ++ Nat.repr status, logJsonParsed,
              logHeadUnexpected ++ stringify result, logFinally],
            upstreamCalls := [req], caughtError := none }
        | .text v =>
          { response := jsonResponse 200 (.obj [("text", v)]),
            logs := logs ++ [logHeadStatus ++ Nat.repr status, logJsonParsed,
              logHeadExtracted ++ renderLogVal (getField v "length"),
              logFinally],
            upstreamCalls := [req], caughtError := none }

/-- Shallow embedding of `exports.handler`.  The inputs are the inbound
event, the value of `process.env.GEMINI_API_KEY` (`none` when the
variable is unset), and the behavior of the single outbound `fetch`.
All exceptions the source can raise are modeled explicitly and routed to
the surrounding handlers, so the function is total: every invocation
produces exactly one response. -/
def handler (event : Event) (apiKey : Option String) (outcome : FetchOutcome) :
    HandlerResult :=
  if event.httpMethod ≠ "POST" then
    { response := jsonResponse 405 (msgBody msg405),
      logs := [logInvoked, logHeadMethod ++ event.httpMethod],
      upstreamCalls := [], caughtError := none }
  else
    match event.bodyParse with
    | .error e =>
      { response := jsonResponse 400 (msgBody msgInvalidJson),
        logs := [logInvoked, logHeadParseError ++ renderErr e],
        upstreamCalls := [], caughtError := none }
    | .ok bodyV =>
      match accessProp (some bodyV) "prompt" with
      | .error e =>
        { response := jsonResponse 400 (msgBody msgInvalidJson),
          logs := [logInvoked, logHeadParseError ++ renderErr e],
          upstreamCalls := [], caughtError := none }
      | .ok promptOpt =>
        match promptOpt with
        | none =>
          { response := jsonResponse 400 (msgBody msgPromptRequired),
            logs := [logInvoked, logHeadPromptLen ++ renderPromptLen none,
              logPromptMissing],
            upstreamCalls := [], caughtError := none }
        | some prompt =>
          if ¬ truthy prompt then
            { response := jsonResponse 400 (msgBody msgPromptRequired),
              logs := [logInvoked,
                logHeadPromptLen ++ renderPromptLen (some prompt),
                logPromptMissing],
              upstreamCalls := [], caughtError := none }
          else
            match apiKey with
            | none =>
              { response := jsonResponse 500 (msgBody msgNoKey),
                logs := [logInvoked,
                  logHeadPromptLen ++ renderPromptLen (some prompt),
                  logNoKey],
                upstreamCalls := [], caughtError := none }
            | some key =>
              if key = "" then
                { response := jsonResponse 500 (msgBody msgNoKey),
                  logs := [logInvoked,
                    logHeadPromptLen ++ renderPromptLen (some prompt),
                    logNoKey],
                  upstreamCalls := [], caughtError := none }
              else
                fetchStage (fetchRequestFor key prompt)
                  (validatedLogs (some prompt) key) outcome

/-! ### Substring occurrence

`occursIn needle hay` decides whether `needle` appears verbatim (as a
contiguous substring) in `hay`; it is the notion of "appears verbatim"
used by the credential-secrecy claims. -/

/-- Property access on a defined non-null value never throws. -/
theorem accessProp_ok {v : JsVal} (hv : v ≠ .null) (k : String) :
    accessProp (some v) k = .ok (getField v k) := by
  cases v <;> first | rfl | exact absurd rfl hv

/-- On the fully validated path (POST, parsed body, truthy prompt, truthy
credential) the handler reduces to the fetch stage applied to the request
it issues. -/
theorem handler_validated (ev : Event) (k : String) (b p : JsVal)
    (o : FetchOutcome) (hm : ev.httpMethod = "POST")
    (hb : ev.bodyParse = .ok b) (hp : getField b "prompt" = some p)
    (htr : truthy p = true) (hk : k ≠ "") :
    handler ev (some k) o =
      fetchStage (fetchRequestFor k p) (validatedLogs (some p) k) o := by
  have hbn : b ≠ .null := by
    intro h; subst h; simp [getField] at hp
  unfold handler
  simp [hm, hb, accessProp_ok hbn, hp, htr, hk]

/-- Every path through the fetch stage records exactly the one issued
request. -/
theorem fetchStage_upstream (req : FetchRequest) (logs : List String)
    (o : FetchOutcome) : (fetchStage req logs o).upstreamCalls = [req] := by
  unfold fetchStage catchResult
  repeat' split
  all_goals rfl

/-- The catch block on a non-abort error produces the fixed 500 response
embedding the error's message. -/
theorem catchResult_nonabort (e : JsError) (logs : List String)
    (req : FetchRequest) (hn : e.name ≠ "AbortError") :
    (catchResult e logs req).response =
      jsonResponse 500 (.obj [("message", .str msgServerError),
        ("error", .str e.message)]) := by
  unfold catchResult
  simp [hn]

/-- If the fetch stage caught an exception that is not an abort, the
response is the fixed 500 with the error message. -/
theorem fetchStage_caught (req : FetchRequest) (logs : List String)
    (o : FetchOutcome) (e : JsError)
    (hc : (fetchStage req logs o).caughtError = some e)
    (hn : e.name ≠ "AbortError") :
    (fetchStage req logs o).response =
      jsonResponse 500 (.obj [("message", .str msgServerError),
        ("error", .str e.message)]) := by
  revert hc
  unfold fetchStage catchResult
  repeat' split
  all_goals intro hc
  all_goals simp_all

/-! ### The claims -/

/-- C1: For every inbound request (any method, any body, credential
configured or not, upstream succeeding, failing, or timing out), the
handler — a total function in this embedding, every modeled exception
being routed to an enclosing handler — returns exactly one response whose
body is the JSON serialization of some value, i.e. a well-formed JSON
body, and no failure path escapes without a response. -/
theorem handler_total_wellformed_json (event : Event) (apiKey : Option String)
    (outcome : FetchOutcome) :
    ∃ j : JsVal, (handler event apiKey outcome).response.body = stringify j := by
  unfold handler fetchStage catchResult
  repeat' split
  all_goals exact ⟨_, rfl⟩

/-- C6: When the upstream call ends in the abort raised by the 20-second
timer, the handler returns 504 with the fixed timeout message; exactly one
upstream request was issued (no retry), and that request carried the abort
controller's signal, armed with a 20000 ms timer — the modeled form of
active cancellation. -/
theorem timeout_504 (ev : Event) (k : String) (b p : JsVal) (err : JsError)
    (hm : ev.httpMethod = "POST") (hb : ev.bodyParse = .ok b)
    (hp : getField b "prompt" = some p) (htr : truthy p = true) (hk : k ≠ "")
    (habort : err.name = "AbortError") :
    (handler ev (some k) (.failure err)).response =
        jsonResponse 504 (msgBody msgTimeout) ∧
      (handler ev (some k) (.failure err)).upstreamCalls =
        [fetchRequestFor k p] ∧
      (fetchRequestFor k p).signalAttached = true ∧
      (fetchRequestFor k p).abortTimerMs = 20000 := by
  rw [handler_validated ev k b p _ hm hb hp htr hk]
  unfold fetchStage catchResult
  simp [habort, fetchRequestFor]

/-- Witness for C6 at a concrete request, credential and abort. -/
theorem timeout_504_witness :
    (handler ⟨"POST", .ok (.obj [("prompt", .str "hi")])⟩ (some "k")
        (.failure ⟨"AbortError", "The operation was aborted"⟩)).response =
      jsonResponse 504 (msgBody msgTimeout) :=
  (timeout_504 ⟨"POST", .ok (.obj [("prompt", .str "hi")])⟩ "k"
    (.obj [("prompt", .str "hi")]) (.str "hi")
    ⟨"AbortError", "The operation was aborted"⟩ rfl rfl rfl (by decide)
    (by decide) rfl).1

/-- C7: Every exception reaching the catch block around the upstream call
and response processing (network failure, `response.json()` failure, the
`TypeError`s of the extraction step) that is not the timeout abort yields
status 500 with the fixed message and the stringified failure reason in
the `error` field. -/
theorem nonabort_exceptions_500 (ev : Event) (apiKey : Option String)
    (o : FetchOutcome) (e : JsError)
    (hc : (handler ev apiKey o).caughtError = some e)
    (hn : e.name ≠ "AbortError") :
    (handler ev apiKey o).response =
      jsonResponse 500 (.obj [("message", .str msgServerError),
        ("error", .str e.message)]) := by
  revert hc
  unfold handler
  repeat' split
  all_goals intro hc
  · exact absurd hc (by simp)
  · exact absurd hc (by simp)
  · exact absurd hc (by simp)
  · exact absurd hc (by simp)
  · exact absurd hc (by simp)
  · exact absurd hc (by simp)
  · exact absurd hc (by simp)
  · exact fetchStage_caught _ _ _ _ hc hn

/-- Witness for C7 at a concrete network failure. -/
theorem nonabort_exceptions_500_witness :
    (handler ⟨"POST", .ok (.obj [("prompt", .str "hi")])⟩ (some "k")
        (.failure ⟨"FetchError", "request failed"⟩)).response =
      jsonResponse 500 (.obj [("message", .str msgServerError),
        ("error", .str "request failed")]) :=
  nonabort_exceptions_500 ⟨"POST", .ok (.obj [("prompt", .str "hi")])⟩
    (some "k") (.failure ⟨"FetchError", "request failed"⟩)
    ⟨"FetchError", "request failed"⟩ (by decide) (by decide)

/-- C8: When the credential is absent from the configuration, a validated
POST request gets status 500 with the not-configured message and no
upstream call is attempted. -/
theorem missing_key_500 (ev : Event) (o : FetchOutcome) (b p : JsVal)
    (hm : ev.httpMethod = "POST") (hb : ev.bodyParse = .ok b)
    (hp : getField b "prompt" = some p) (htr : truthy p = true) :
    (handler ev none o).response = jsonResponse 500 (msgBody msgNoKey) ∧
      (handler ev none o).upstreamCalls = [] := by
  have hbn : b ≠ .null := by
    intro h; subst h; simp [getField] at hp
  unfold handler
  simp [hm, hb, accessProp_ok hbn, hp, htr]

/-- Witness for C8 at a concrete request. -/
theorem missing_key_500_witness :
    (handler ⟨"POST", .ok (.obj [("prompt", .str "hi")])⟩ none
        (.failure ⟨"E", "m"⟩)).response =
      jsonResponse 500 (msgBody msgNoKey) :=
  (missing_key_500 ⟨"POST", .ok (.obj [("prompt", .str "hi")])⟩
    (.failure ⟨"E", "m"⟩) (.obj [("prompt", .str "hi")]) (.str "hi")
    rfl rfl rfl (by decide)).1

/-- C9: For every validated prompt, the one request sent upstream carries
exactly the body
`contents: [ role: "user", parts: [ text: prompt ] ]` —
a single-element contents array whose one turn has role `"user"` and a
single text part holding the prompt unmodified. -/
theorem upstream_payload_exact (ev : Event) (k : String) (b p : JsVal)
    (o : FetchOutcome) (hm : ev.httpMethod = "POST")
    (hb : ev.bodyParse = .ok b) (hp : getField b "prompt" = some p)
    (htr : truthy p = true) (hk : k ≠ "") :
    (handler ev (some k) o).upstreamCalls =
      [{ url := apiUrlFor k, method := "POST",
         contentType := "application/json",
         body := stringify (JsVal.obj [("contents", JsVal.arr [JsVal.obj
           [("role", JsVal.str "user"),
            ("parts", JsVal.arr [JsVal.obj [("text", p)]])]])]),
         signalAttached := true, abortTimerMs := 20000 }] := by
  rw [handler_validated ev k b p o hm hb hp htr hk, fetchStage_upstream]
  rfl

/-- Witness for C9 at a concrete prompt. -/
theorem upstream_payload_exact_witness :
    (handler ⟨"POST", .ok (.obj [("prompt", .str "hi")])⟩ (some "k")
        (.failure ⟨"E", "m"⟩)).upstreamCalls =
      [{ url := apiUrlFor "k", method := "POST",
         contentType := "application/json",
         body := stringify (JsVal.obj [("contents", JsVal.arr [JsVal.obj
           [("role", JsVal.str "user"),
            ("parts", JsVal.arr [JsVal.obj [("text", JsVal.str "hi")]])]])]),
         signalAttached := true, abortTimerMs := 20000 }] :=
  upstream_payload_exact ⟨"POST", .ok (.obj [("prompt", .str "hi")])⟩ "k"
    (.obj [("prompt", .str "hi")]) (.str "hi") (.failure ⟨"E", "m"⟩)
    rfl rfl rfl (by decide) (by decide)

/-- C10: A configured-but-empty credential is treated exactly as an absent
one: the whole invocation result is identical, and a validated POST
request gets the 500 not-configured response with no upstream call. -/
theorem empty_key_as_absent (ev : Event) (o : FetchOutcome) :
    handler ev (some "") o = handler ev none o ∧
      (∀ b p : JsVal, ev.httpMethod = "POST" → ev.bodyParse = .ok b →
        getField b "prompt" = some p → truthy p = true →
        (handler ev (some "") o).response =
            jsonResponse 500 (msgBody msgNoKey) ∧
          (handler ev (some "") o).upstreamCalls = []) := by
  constructor
  · by_cases hm : ev.httpMethod = "POST"
    · rcases hb : ev.bodyParse with e | b
      · simp [handler, hm, hb]
      · rcases ha : accessProp (some b) "prompt" with e | pOpt
        · simp [handler, hm, hb, ha]
        · rcases pOpt with _ | p
          · simp [handler, hm, hb, ha]
          · by_cases htr : truthy p
            · simp [handler, hm, hb, ha, htr]
            · simp [handler, hm, hb, ha, htr]
    · simp [handler, hm]
  · intro b p hm hb hp htr
    have hbn : b ≠ .null := by
      intro h; subst h; simp [getField] at hp
    unfold handler
    simp [hm, hb, accessProp_ok hbn, hp, htr]

/-- Witness for C10's guarded part at a concrete request. -/
theorem empty_key_as_absent_witness :
    (handler ⟨"POST", .ok (.obj [("prompt", .str "hi")])⟩ (some "")
        (.failure ⟨"E", "m"⟩)).response =
      jsonResponse 500 (msgBody msgNoKey) :=
  ((empty_key_as_absent ⟨"POST", .ok (.obj [("prompt", .str "hi")])⟩
    (.failure ⟨"E", "m"⟩)).2 (.obj [("prompt", .str "hi")]) (.str "hi")
    rfl rfl rfl (by decide)).1

/-- C5 fails as stated: a POST body that parses to `null` yields 400 with
the "Invalid JSON body." message (reading `body.prompt` on `null` throws
inside the parse `try`), not the "Prompt is required..." message; and a
body whose `prompt` is the number `5` — valid JSON with no non-empty
`prompt` *string* — passes the `!prompt` check and the upstream call is
attempted instead of returning 400. -/
theorem prompt_validation_counterexample :
    (handler ⟨"POST", .ok JsVal.null⟩ (some "k")
        (.failure ⟨"E", "m"⟩)).response.body ≠
      stringify (msgBody msgPromptRequired) ∧
    (handler ⟨"POST", .ok JsVal.null⟩ (some "k")
        (.failure ⟨"E", "m"⟩)).response =
      jsonResponse 400 (msgBody msgInvalidJson) ∧
    (handler ⟨"POST", .ok (.obj [("prompt", .num 5)])⟩ (some "k")
        (.failure ⟨"E", "m"⟩)).upstreamCalls.length = 1 ∧
    (handler ⟨"POST", .ok (.obj [("prompt", .num 5)])⟩ (some "k")
        (.failure ⟨"E", "m"⟩)).response.statusCode ≠ 400 := by
  decide

/-- C5 amended: for POST requests with a parsed JSON body, (1) a body equal
to `null` yields 400 with the "Invalid JSON body." message and no upstream
call; (2) any other body whose `prompt` field is falsy (missing, empty
string, `null`, `0`, `false`) yields 400 with the "Prompt is required..."
message and no upstream call; (3) any truthy `prompt` — string or not —
proceeds past the check, and with a configured credential the upstream
call is attempted. -/
theorem prompt_validation (ev : Event) (key : Option String)
    (o : FetchOutcome) (b : JsVal) (hm : ev.httpMethod = "POST")
    (hb : ev.bodyParse = .ok b) :
    (b = .null →
      (handler ev key o).response = jsonResponse 400 (msgBody msgInvalidJson) ∧
        (handler ev key o).upstreamCalls = []) ∧
    (b ≠ .null → truthyOpt (getField b "prompt") = false →
      (handler ev key o).response =
          jsonResponse 400 (msgBody msgPromptRequired) ∧
        (handler ev key o).upstreamCalls = []) ∧
    (∀ p, getField b "prompt" = some p → truthy p = true →
      ∀ k, key = some k → k ≠ "" →
        (handler ev key o).upstreamCalls = [fetchRequestFor k p]) := by
  refine ⟨?_, ?_, ?_⟩
  · rintro rfl
    unfold handler
    simp [hm, hb, accessProp]
  · intro hbn hfalsy
    unfold handler
    rcases hgf : getField b "prompt" with _ | p
    · simp [hm, hb, accessProp_ok hbn, hgf]
    · rw [hgf] at hfalsy
      simp only [truthyOpt] at hfalsy
      simp [hm, hb, accessProp_ok hbn, hgf, hfalsy]
  · intro p hp htr k hkey hk
    subst hkey
    rw [handler_validated ev k b p o hm hb hp htr hk, fetchStage_upstream]

/-- Witness for C5's amended statement at concrete requests. -/
theorem prompt_validation_witness :
    (handler ⟨"POST", .ok (.obj [("prompt", .str "hi")])⟩ (some "k")
        (.failure ⟨"E", "m"⟩)).upstreamCalls =
      [fetchRequestFor "k" (.str "hi")] :=
  (prompt_validation ⟨"POST", .ok (.obj [("prompt", .str "hi")])⟩ (some "k")
    (.failure ⟨"E", "m"⟩) (.obj [("prompt", .str "hi")]) rfl rfl).2.2
    (.str "hi") rfl (by decide) "k" rfl (by decide)

/-- C4 fails as stated: when the upstream responds 429 but its error body
is not valid JSON, `response.json()` throws, so the caller receives 500
(the generic failure path), not the mirrored 429. -/
theorem upstream_error_mirror_counterexample :
    (handler ⟨"POST", .ok (.obj [("prompt", .str "hi")])⟩ (some "k")
        (.response 429 "Too Many Requests"
          (.error ⟨"FetchError", "invalid json response body"⟩))).response.statusCode
      = 500 ∧
    (handler ⟨"POST", .ok (.obj [("prompt", .str "hi")])⟩ (some "k")
        (.response 429 "Too Many Requests"
          (.error ⟨"FetchError", "invalid json response body"⟩))).response.statusCode
      ≠ 429 := by
  decide

/-- C4 amended: for a validated request and an upstream response with a
non-success status, *when its error body parses as JSON* the handler
mirrors the upstream status with body
`message: "Error from AI service: <status text>", details: <error body>`;
when the error body does not parse, the invocation falls to the generic
500 path with the parse error's message. -/
theorem upstream_error_mirror (ev : Event) (k : String) (b p : JsVal)
    (status : Nat) (statusText : String) (json : Except JsError JsVal)
    (hm : ev.httpMethod = "POST") (hb : ev.bodyParse = .ok b)
    (hp : getField b "prompt" = some p) (htr : truthy p = true) (hk : k ≠ "")
    (hns : ¬ (200 ≤ status ∧ status ≤ 299)) :
    (∀ errBody, json = .ok errBody →
      (handler ev (some k) (.response status statusText json)).response =
          jsonResponse status
            (.obj [("message", .str (msgHeadAiError ++ statusText)),
              ("details", errBody)]) ∧
        (handler ev (some k) (.response status statusText json)).upstreamCalls =
          [fetchRequestFor k p]) ∧
    (∀ e, json = .error e → e.name ≠ "AbortError" →
      (handler ev (some k) (.response status statusText json)).response =
        jsonResponse 500 (.obj [("message", .str msgServerError),
          ("error", .str e.message)])) := by
  rw [handler_validated ev k b p _ hm hb hp htr hk]
  constructor
  · rintro errBody rfl
    unfold fetchStage
    simp [hns]
  · rintro e rfl hn
    unfold fetchStage
    simp only [hns, not_false_eq_true, if_true, ite_true]
    exact catchResult_nonabort e _ _ hn

/-- Witness for C4's amended statement at a concrete 429 JSON error
body. -/
theorem upstream_error_mirror_witness :
    (handler ⟨"POST", .ok (.obj [("prompt", .str "hi")])⟩ (some "k")
        (.response 429 "Too Many Requests"
          (.ok (.obj [("error", .str "rate limited")])))).response =
      jsonResponse 429
        (.obj [("message", .str (msgHeadAiError ++ "Too Many Requests")),
          ("details", .obj [("error", .str "rate limited")])]) :=
  ((upstream_error_mirror ⟨"POST", .ok (.obj [("prompt", .str "hi")])⟩ "k"
    (.obj [("prompt", .str "hi")]) (.str "hi") 429 "Too Many Requests"
    (.ok (.obj [("error", .str "rate limited")])) rfl rfl rfl (by decide)
    (by decide) (by decide)).1 (.obj [("error", .str "rate limited")]) rfl).1

/-! ### Lemmas about the extraction step -/

/-- A `length` read of `n + 1` elements compares greater than zero. -/
theorem jsGtZero_len (n : Nat) :
    jsGtZero (some (.num ((n + 1 : Nat) : Int))) = true := by
  simp only [jsGtZero, decide_eq_true_eq]
  omega

/-- The `length` property of an array value. -/
theorem getField_arr_length (xs : List JsVal) :
    getField (.arr xs) "length" = some (.num (xs.length : Int)) := by
  simp [getField]

/-- Arrays are truthy. -/
theorem truthy_arr (xs : List JsVal) : truthy (.arr xs) = true := rfl

/-- Index 0 of a non-empty array value. -/
theorem getIdx_arr_zero (x : JsVal) (xs : List JsVal) :
    getIdx (.arr (x :: xs)) 0 = some x := by
  simp [getIdx]

/-- A zero `length` does not compare greater than zero. -/
theorem jsGtZero_zero : jsGtZero (some (.num ((0 : Nat) : Int))) = false := rfl

/-- Missing `candidates` field: quiet fall-through to the empty result. -/
theorem extractText_noCands {result : JsVal} (hres : result ≠ .null)
    (h : getField result "candidates" = none) :
    extractText result = .noText := by
  simp only [extractText, accessProp_ok hres, h]

/-- Empty `candidates` array: quiet fall-through to the empty result. -/
theorem extractText_emptyCands {result : JsVal} (hres : result ≠ .null)
    (h : getField result "candidates" = some (.arr [])) :
    extractText result = .noText := by
  simp only [extractText, accessProp_ok hres, h, truthy_arr,
    getField_arr_length, List.length_nil, jsGtZero_zero, if_true, ite_false,
    if_false, Bool.false_eq_true]

/-- First candidate with no `content` field: quiet fall-through. -/
theorem extractText_noContent {result c0 : JsVal} {rest : List JsVal}
    (hres : result ≠ .null)
    (h : getField result "candidates" = some (.arr (c0 :: rest)))
    (hc0 : c0 ≠ .null) (hcontent : getField c0 "content" = none) :
    extractText result = .noText := by
  simp only [extractText, accessProp_ok hres, h, truthy_arr,
    getField_arr_length, List.length_cons, jsGtZero_len, getIdx_arr_zero,
    accessProp_ok hc0, hcontent, if_true]

/-- Content with no `parts` field: quiet fall-through. -/
theorem extractText_noParts {result c0 ct : JsVal} {rest : List JsVal}
    (hres : result ≠ .null)
    (h : getField result "candidates" = some (.arr (c0 :: rest)))
    (hc0 : c0 ≠ .null) (hcontent : getField c0 "content" = some ct)
    (hct : truthy ct = true) (hparts : getField ct "parts" = none) :
    extractText result = .noText := by
  simp only [extractText, accessProp_ok hres, h, truthy_arr,
    getField_arr_length, List.length_cons, jsGtZero_len, getIdx_arr_zero,
    accessProp_ok hc0, hcontent, hct, hparts, if_true]

/-- Empty `parts` array: quiet fall-through. -/
theorem extractText_emptyParts {result c0 ct : JsVal} {rest : List JsVal}
    (hres : result ≠ .null)
    (h : getField result "candidates" = some (.arr (c0 :: rest)))
    (hc0 : c0 ≠ .null) (hcontent : getField c0 "content" = some ct)
    (hct : truthy ct = true) (hparts : getField ct "parts" = some (.arr [])) :
    extractText result = .noText := by
  simp only [extractText, accessProp_ok hres, h, truthy_arr,
    getField_arr_length, List.length_cons, jsGtZero_len, getIdx_arr_zero,
    accessProp_ok hc0, hcontent, hct, hparts, List.length_nil, jsGtZero_zero,
    if_true]
  simp

/-- First part carrying a non-null `text` field: the text is extracted. -/
theorem extractText_text {result c0 ct p0 v : JsVal}
    {rest ps : List JsVal} (hres : result ≠ .null)
    (h : getField result "candidates" = some (.arr (c0 :: rest)))
    (hc0 : c0 ≠ .null) (hcontent : getField c0 "content" = some ct)
    (hct : truthy ct = true)
    (hparts : getField ct "parts" = some (.arr (p0 :: ps)))
    (hp0 : p0 ≠ .null) (htext : getField p0 "text" = some v)
    (hv : v ≠ .null) : extractText result = .text v := by
  cases v
  case null => exact absurd rfl hv
  all_goals
    simp only [extractText, accessProp_ok hres, h, truthy_arr,
      getField_arr_length, List.length_cons, jsGtZero_len, getIdx_arr_zero,
      accessProp_ok hc0, hcontent, hct, hparts, accessProp_ok hp0, htext,
      if_true]

/-- First part present but with no `text` field: the success log's
`generatedText.length` read throws a `TypeError`. -/
theorem extractText_missingText {result c0 ct p0 : JsVal}
    {rest ps : List JsVal} (hres : result ≠ .null)
    (h : getField result "candidates" = some (.arr (c0 :: rest)))
    (hc0 : c0 ≠ .null) (hcontent : getField c0 "content" = some ct)
    (hct : truthy ct = true)
    (hparts : getField ct "parts" = some (.arr (p0 :: ps)))
    (hp0 : p0 ≠ .null) (htext : getField p0 "text" = none) :
    extractText result = .thrown (teUndefined "length") := by
  simp only [extractText, accessProp_ok hres, h, truthy_arr,
    getField_arr_length, List.length_cons, jsGtZero_len, getIdx_arr_zero,
    accessProp_ok hc0, hcontent, hct, hparts, accessProp_ok hp0, htext,
    if_true]

/-- A success-status response whose extraction falls through quietly
produces the 200 empty-text response. -/
theorem fetchStage_noText {req : FetchRequest} {logs : List String}
    {status : Nat} {stext : String} {result : JsVal}
    (hok : 200 ≤ status ∧ status ≤ 299)
    (hx : extractText result = .noText) :
    (fetchStage req logs (.response status stext (.ok result))).response =
      jsonResponse 200 (.obj [("text", .str "")]) := by
  unfold fetchStage
  simp [hok, hx]

/-- A success-status response with extracted text produces the 200
response carrying it. -/
theorem fetchStage_text {req : FetchRequest} {logs : List String}
    {status : Nat} {stext : String} {result v : JsVal}
    (hok : 200 ≤ status ∧ status ≤ 299)
    (hx : extractText result = .text v) :
    (fetchStage req logs (.response status stext (.ok result))).response =
      jsonResponse 200 (.obj [("text", v)]) := by
  unfold fetchStage
  simp [hok, hx]

/-- A success-status response whose extraction throws a non-abort error
produces the generic 500 response. -/
theorem fetchStage_thrown {req : FetchRequest} {logs : List String}
    {status : Nat} {stext : String} {result : JsVal} {e : JsError}
    (hok : 200 ≤ status ∧ status ≤ 299)
    (hx : extractText result = .thrown e) (hn : e.name ≠ "AbortError") :
    (fetchStage req logs (.response status stext (.ok result))).response =
      jsonResponse 500 (.obj [("message", .str msgServerError),
        ("error", .str e.message)]) := by
  unfold fetchStage
  simp only [hok, hx, not_true_eq_false, if_false, ite_false, and_self,
    not_and, not_le]
  exact catchResult_nonabort e _ _ hn

/-- C3 fails as stated: when the upstream success body reaches
`candidates[0].content.parts[0]` but that part has no `text` field, the
handler returns 500 (the success log's `generatedText.length` read throws
a `TypeError` caught by the generic path), not 200 with empty text as the
claim demands for missing text. -/
theorem extraction_missing_text_counterexample :
    (handler ⟨"POST", .ok (.obj [("prompt", .str "hi")])⟩ (some "k")
        (.response 200 "OK" (.ok (.obj [("candidates", .arr [.obj [("content",
          .obj [("parts", .arr [.obj []])])]])])))).response.statusCode
      = 500 ∧
    (handler ⟨"POST", .ok (.obj [("prompt", .str "hi")])⟩ (some "k")
        (.response 200 "OK" (.ok (.obj [("candidates", .arr [.obj [("content",
          .obj [("parts", .arr [.obj []])])]])])))).response.body
      ≠ stringify (.obj [("text", .str "")]) := by
  decide

/-- C3 amended: for a validated request and a success-status upstream
response with parsed body `result`, the structure checks that the source's
guard chain performs quietly (missing or empty `candidates`, missing
`content`, missing or empty `parts`) yield 200 with body `text: ""`;
a present non-null `text` value at `candidates[0].content.parts[0].text`
is returned unchanged as 200 with body `text: <value>`; but a first part
*lacking* the `text` field yields 500 (the success log's length read
throws), diverging from the original claim. -/
theorem extraction_behavior (ev : Event) (k : String) (b p : JsVal)
    (status : Nat) (stext : String) (result : JsVal)
    (hm : ev.httpMethod = "POST") (hb : ev.bodyParse = .ok b)
    (hp : getField b "prompt" = some p) (htr : truthy p = true) (hk : k ≠ "")
    (hok : 200 ≤ status ∧ status ≤ 299) (hres : result ≠ .null) :
    (getField result "candidates" = none →
      (handler ev (some k) (.response status stext (.ok result))).response =
        jsonResponse 200 (.obj [("text", .str "")])) ∧
    (getField result "candidates" = some (.arr []) →
      (handler ev (some k) (.response status stext (.ok result))).response =
        jsonResponse 200 (.obj [("text", .str "")])) ∧
    (∀ c0 rest, getField result "candidates" = some (.arr (c0 :: rest)) →
      c0 ≠ .null →
      (getField c0 "content" = none →
        (handler ev (some k) (.response status stext (.ok result))).response =
          jsonResponse 200 (.obj [("text", .str "")])) ∧
      (∀ ct, getField c0 "content" = some ct → truthy ct = true →
        (getField ct "parts" = none →
          (handler ev (some k)
              (.response status stext (.ok result))).response =
            jsonResponse 200 (.obj [("text", .str "")])) ∧
        (getField ct "parts" = some (.arr []) →
          (handler ev (some k)
              (.response status stext (.ok result))).response =
            jsonResponse 200 (.obj [("text", .str "")])) ∧
        (∀ p0 ps, getField ct "parts" = some (.arr (p0 :: ps)) →
          p0 ≠ .null →
          (∀ v, getField p0 "text" = some v → v ≠ .null →
            (handler ev (some k)
                (.response status stext (.ok result))).response =
              jsonResponse 200 (.obj [("text", v)])) ∧
          (getField p0 "text" = none →
            (handler ev (some k)
                (.response status stext (.ok result))).response =
              jsonResponse 500 (.obj [("message", .str msgServerError),
                ("error", .str (teUndefined "length").message)]))))) := by
  have hval := handler_validated ev k b p (.response status stext (.ok result))
    hm hb hp htr hk
  refine ⟨?_, ?_, ?_⟩
  · intro h
    rw [hval]
    exact fetchStage_noText hok (extractText_noCands hres h)
  · intro h
    rw [hval]
    exact fetchStage_noText hok (extractText_emptyCands hres h)
  · intro c0 rest h hc0
    refine ⟨?_, ?_⟩
    · intro hcontent
      rw [hval]
      exact fetchStage_noText hok (extractText_noContent hres h hc0 hcontent)
    · intro ct hcontent hct
      refine ⟨?_, ?_, ?_⟩
      · intro hparts
        rw [hval]
        exact fetchStage_noText hok
          (extractText_noParts hres h hc0 hcontent hct hparts)
      · intro hparts
        rw [hval]
        exact fetchStage_noText hok
          (extractText_emptyParts hres h hc0 hcontent hct hparts)
      · intro p0 ps hparts hp0
        refine ⟨?_, ?_⟩
        · intro v htext hv
          rw [hval]
          exact fetchStage_text hok
            (extractText_text hres h hc0 hcontent hct hparts hp0 htext hv)
        · intro htext
          rw [hval]
          exact fetchStage_thrown hok
            (extractText_missingText hres h hc0 hcontent hct hparts hp0 htext)
            (by decide)

/-- Witness for C3's amended statement: the reference success body carries
`text = "hello"` and the handler returns it unchanged with status 200. -/
theorem extraction_behavior_witness :
    (handler ⟨"POST", .ok (.obj [("prompt", .str "hi")])⟩ (some "k")
        (.response 200 "OK" (.ok (.obj [("candidates", .arr [.obj [("content",
          .obj [("parts", .arr [.obj [("text", .str "hello")]])])]])])))).response
      = jsonResponse 200 (.obj [("text", .str "hello")]) :=
  ((((extraction_behavior ⟨"POST", .ok (.obj [("prompt", .str "hi")])⟩ "k"
      (.obj [("prompt", .str "hi")]) (.str "hi") 200 "OK"
      (.obj [("candidates", .arr [.obj [("content",
        .obj [("parts", .arr [.obj [("text", .str "hello")]])])]])])
      rfl rfl rfl (by decide) (by decide) (by decide)
      (fun hcon => JsVal.noConfusion hcon)).2.2
    (.obj [("content", .obj [("parts", .arr [.obj [("text", .str "hello")]])])])
    [] rfl (fun hcon => JsVal.noConfusion hcon)).2
    (.obj [("parts", .arr [.obj [("text", .str "hello")]])]) rfl rfl).2.2
    (.obj [("text", .str "hello")]) [] rfl
    (fun hcon => JsVal.noConfusion hcon)).1
    (.str "hello") rfl (fun hcon => JsVal.noConfusion hcon)

/-! ### Credential confinement: supporting lemmas -/

end GenRisk
